import Mathlib

/-!
Shallow embedding of `src/ross/stochastic/st_results.py` (STOCHASTIC ROSS
plotting module).

Numeric values are modelled by `ℚ`.  A numpy array of shape
`(modes, speeds, N)` becomes `List (List (List ℚ))` and so on; `np.mean`
and `np.percentile` (with the default linear interpolation) along the
relevant axis become `meanAxis1` / `percentileAxis1` (reduction along the
last axis of a 2-d slice) and `meanAxis0` / `percentileAxis0` (reduction
along the first axis).

A bokeh figure is modelled by its drawn content: the title, the axis
labels and the ordered list of line glyphs.  Each glyph keeps its x data,
y data, colour, alpha, width and legend label.  Colour palettes
(`bp.Category10[10]`, `bp.Category20c[20]`, matplotlib's `tab10`/`tab20c`
colormaps and the literal black) are abstracted into an indexed inductive
type, and legend labels are modelled by the parameters that the python
format strings interpolate.  Matplotlib 3-d axes keep x, y, z data per
line.  Raised python exceptions are modelled with `Except`.
-/

/-- Embedding of `np.sort` of a 1-d array of rationals (ascending). -/
def sortQ (l : List ℚ) : List ℚ := List.insertionSort (· ≤ ·) l

/-- Linear interpolation step of `np.percentile`: given the sorted sample
`s` and the virtual index `h`, return
`s[⌊h⌋] + (h - ⌊h⌋) * (s[⌊h⌋+1] - s[⌊h⌋])`, the upper index being clamped
to the last position. -/
def interpAt (s : List ℚ) (h : ℚ) : ℚ :=
  s.getD (⌊h⌋).toNat 0
    + (h - ((⌊h⌋).toNat : ℚ)) *
      (s.getD (min ((⌊h⌋).toNat + 1) (s.length - 1)) 0 - s.getD (⌊h⌋).toNat 0)

/-- Embedding of `np.percentile(a, q)` for a 1-d sample `a`, default (linear)
interpolation: sort the sample and interpolate at virtual index
`q * (n - 1) / 100`. -/
def percentile (q : ℚ) (l : List ℚ) : ℚ :=
  interpAt (sortQ l) (q * (((sortQ l).length : ℚ) - 1) / 100)

/-- Embedding of `np.mean` of a 1-d sample. -/
def listMean (l : List ℚ) : ℚ := l.sum / (l.length : ℚ)

/-- Embedding of `np.mean(m, axis=1)` for a 2-d array `m` (one mean per row). -/
def meanAxis1 (m : List (List ℚ)) : List ℚ := m.map listMean

/-- Embedding of `np.percentile(m, q, axis=1)` for a 2-d array `m` (one value per row). -/
def percentileAxis1 (q : ℚ) (m : List (List ℚ)) : List ℚ := m.map (percentile q)

/-- Number of columns of a rectangular 2-d array (length of the first row). -/
def ncols (m : List (List ℚ)) : ℕ := (m.headD []).length

/-- Column `t` of a 2-d array. -/
def colAt (m : List (List ℚ)) (t : ℕ) : List ℚ := m.map (fun row => row.getD t 0)

/-- Embedding of `np.mean(m, axis=0)` for a 2-d array `m` (one mean per column). -/
def meanAxis0 (m : List (List ℚ)) : List ℚ :=
  (List.range (ncols m)).map (fun t => listMean (colAt m t))

/-- Embedding of `np.percentile(m, q, axis=0)` for a 2-d array `m` (one value per column). -/
def percentileAxis0 (q : ℚ) (m : List (List ℚ)) : List ℚ :=
  (List.range (ncols m)).map (fun t => percentile q (colAt m t))

/-- Colours used by the module: `colors1 = bp.Category10[10]` (indexed),
`colors2 = bp.Category20c[20]` (indexed), matplotlib colormaps
`tab10` / `tab20c` (indexed), and plain black (`"black"` / `"k"`). -/
inductive PlotColor : Type
  | c1 (i : ℕ)
  | c2 (i : ℕ)
  | black
  | tab10 (i : ℕ)
  | tab20c (i : ℕ)
deriving DecidableEq

/-- A legend label, modelled by the parameters interpolated into the python
format string:
`"Mean"`, `"Mean - Mode {j}"`, `"percentile: {p}%"` (or `"percentile {p}"`),
`"confidence interval: {p}%"`, `"confidence interval: {p}% - Mode {j}"`. -/
inductive Legend : Type
  | mean
  | meanMode (j : ℕ)
  | pct (p : ℚ)
  | conf (p : ℚ)
  | confMode (p : ℚ) (j : ℕ)
deriving DecidableEq

/-- One bokeh line glyph (`fig.line(...)`). -/
structure Curve : Type where
  x : List ℚ
  y : List ℚ
  color : PlotColor
  alpha : ℚ
  width : ℚ
  label : Legend
deriving DecidableEq

/-- A bokeh figure: title, axis labels and drawn lines, in drawing order. -/
structure Fig : Type where
  title : String
  xLabel : String
  yLabel : String
  curves : List Curve
deriving DecidableEq

/-- z data of a matplotlib 3-d line: either a scalar position or an array. -/
inductive ZData : Type
  | scalar (z : ℚ)
  | arr (zs : List ℚ)
deriving DecidableEq

/-- One matplotlib 3-d line (`ax.plot(xs, ys, z, ...)`); the centre line of
the rotor carries no legend label (`label := none`). -/
structure Curve3 : Type where
  x : List ℚ
  y : List ℚ
  z : ZData
  color : PlotColor
  label : Option Legend
deriving DecidableEq

/-- Matplotlib 3-d axes content. -/
structure MplAxes : Type where
  title : String
  xLabel : String
  yLabel : String
  zLabel : String
  curves : List Curve3
deriving DecidableEq

/-- A bokeh grid layout of figures. -/
structure Grid : Type where
  rows : List (List Fig)
deriving DecidableEq

/-- Embedding of `bokeh.layouts.gridplot`. -/
def gridplot (rows : List (List Fig)) : Grid := ⟨rows⟩

/-- Python exceptions raised by the module: `ValueError` (with its
message), `TypeError` (e.g. `None % 4`), `NameError` (reading an unbound
local). -/
inductive PyErr : Type
  | valueError (msg : String)
  | typeError
  | nameError
deriving DecidableEq

/-- Embedding of `ST_CampbellResults.__init__`: stored state.  `wd` and `log_dec` have
shape `(modes, len(speed_range), N)`. -/
structure ST_CampbellResults : Type where
  speed_range : List ℚ
  wd : List (List (List ℚ))
  log_dec : List (List (List ℚ))
deriving DecidableEq

/-- Embedding of `ST_CampbellResults.plot_nat_freq`.  For each mode `j` it draws the
mean curve of `wd[j]` along axis 1, then one curve per requested
percentile `p`, then per confidence value `p` the pair of curves at the
`50 + p/2` and `50 - p/2` percentiles.  The method only reads `self`; the
returned pair keeps the (unchanged) state alongside the produced figure.
The `harmonics` argument is accepted but never read by the source. -/
def ST_CampbellResults.plot_nat_freq (s : ST_CampbellResults)
    (percentile conf_interval harmonics : List ℚ) :
    ST_CampbellResults × Fig :=
  (s,
  { title := "Campbell Diagram"
    xLabel := "Rotor Speed"
    yLabel := "Damped Natural Frequencies"
    curves :=
      (List.range s.wd.length).flatMap (fun j =>
        [{ x := s.speed_range, y := meanAxis1 (s.wd.getD j [])
           color := .c1 j, alpha := 1.0, width := 3.0, label := .meanMode (j + 1) }]
        ++ (if percentile = [] then [] else
             percentile.enum.map (fun ip =>
               { x := s.speed_range, y := percentileAxis1 ip.2 (s.wd.getD j [])
                 color := .c2 ip.1, alpha := 0.6, width := 2.5, label := .pct ip.2 }))
        ++ (if conf_interval = [] then [] else
             conf_interval.enum.flatMap (fun ip =>
               [{ x := s.speed_range, y := percentileAxis1 (50 + ip.2 / 2) (s.wd.getD j [])
                  color := .c1 j, alpha := 0.6, width := 2.5, label := .confMode ip.2 (j + 1) },
                { x := s.speed_range, y := percentileAxis1 (50 - ip.2 / 2) (s.wd.getD j [])
                  color := .c1 j, alpha := 0.6, width := 2.5, label := .confMode ip.2 (j + 1) }]))) })

/-- Embedding of `ST_CampbellResults.plot_log_dec`.  Identical pattern over `log_dec`,
except that the method first rebinds its local `percentile` and
`conf_interval` to `np.sort(...)` of the given lists. -/
def ST_CampbellResults.plot_log_dec (s : ST_CampbellResults)
    (percentile conf_interval harmonics : List ℚ) :
    ST_CampbellResults × Fig :=
  (s,
  { title := "Campbell Diagram"
    xLabel := "Rotor speed"
    yLabel := "Log Dec"
    curves :=
      (List.range s.log_dec.length).flatMap (fun j =>
        [{ x := s.speed_range, y := meanAxis1 (s.log_dec.getD j [])
           color := .c1 j, alpha := 1.0, width := 3.0, label := .meanMode (j + 1) }]
        ++ (if sortQ percentile = [] then [] else
             (sortQ percentile).enum.map (fun ip =>
               { x := s.speed_range, y := percentileAxis1 ip.2 (s.log_dec.getD j [])
                 color := .c2 ip.1, alpha := 0.6, width := 2.5, label := .pct ip.2 }))
        ++ (if sortQ conf_interval = [] then [] else
             (sortQ conf_interval).enum.flatMap (fun ip =>
               [{ x := s.speed_range, y := percentileAxis1 (50 + ip.2 / 2) (s.log_dec.getD j [])
                  color := .c1 j, alpha := 0.6, width := 2.5, label := .confMode ip.2 (j + 1) },
                { x := s.speed_range, y := percentileAxis1 (50 - ip.2 / 2) (s.log_dec.getD j [])
                  color := .c1 j, alpha := 0.6, width := 2.5, label := .confMode ip.2 (j + 1) }]))) })

/-- Embedding of `ST_CampbellResults.plot`: grid of the natural-frequency and the
log-dec figures produced with the same `percentile` / `conf_interval`
arguments (and the default `harmonics=[1]`). -/
def ST_CampbellResults.plot (s : ST_CampbellResults)
    (percentile conf_interval : List ℚ) : ST_CampbellResults × Grid :=
  (s, gridplot [[(ST_CampbellResults.plot_nat_freq s percentile conf_interval [1]).2,
                 (ST_CampbellResults.plot_log_dec s percentile conf_interval [1]).2]])

/-- The specification's uniform Campbell summarization pattern, written
from the spec's words: for each mode, a mean curve along the ensemble
axis, then the i-th percentile curve drawn from the i-th element of the
percentile list, then per confidence value the `50 ± p/2` percentile
pair. -/
def uniformCampbellPattern (speed_range : List ℚ) (data : List (List (List ℚ)))
    (percentile conf_interval : List ℚ) : List Curve :=
  (List.range data.length).flatMap (fun j =>
    [{ x := speed_range, y := meanAxis1 (data.getD j [])
       color := .c1 j, alpha := 1.0, width := 3.0, label := .meanMode (j + 1) }]
    ++ (if percentile = [] then [] else
         percentile.enum.map (fun ip =>
           { x := speed_range, y := percentileAxis1 ip.2 (data.getD j [])
             color := .c2 ip.1, alpha := 0.6, width := 2.5, label := .pct ip.2 }))
    ++ (if conf_interval = [] then [] else
         conf_interval.enum.flatMap (fun ip =>
           [{ x := speed_range, y := percentileAxis1 (50 + ip.2 / 2) (data.getD j [])
              color := .c1 j, alpha := 0.6, width := 2.5, label := .confMode ip.2 (j + 1) },
            { x := speed_range, y := percentileAxis1 (50 - ip.2 / 2) (data.getD j [])
              color := .c1 j, alpha := 0.6, width := 2.5, label := .confMode ip.2 (j + 1) }])))

/-- Embedding of `ST_FrequencyResponseResults.__init__`: stored state.  `magnitude` and
`phase` have shape `(len(speed_range), N)`. -/
structure ST_FrequencyResponseResults : Type where
  speed_range : List ℚ
  magnitude : List (List ℚ)
  phase : List (List ℚ)
deriving DecidableEq

/-- y-axis label selected from the `units` argument. -/
def magnitudeYLabel (units : String) : String :=
  if units = "m" then "Amplitude (m)"
  else if units = "mic-pk-pk" then "Amplitude (μ pk-pk)"
  else "Amplitude (dB)"

/-- Embedding of `ST_FrequencyResponseResults.plot_magnitude`: percentile curves, then
confidence pairs at `50 ± p/2`, then the mean curve, all reduced along
axis 1 of `magnitude`. -/
def ST_FrequencyResponseResults.plot_magnitude (s : ST_FrequencyResponseResults)
    (percentile conf_interval : List ℚ) (units : String) :
    ST_FrequencyResponseResults × Fig :=
  (s,
  { title := "Frequency Response - Magnitude"
    xLabel := "Frequency"
    yLabel := magnitudeYLabel units
    curves :=
      (if percentile = [] then [] else
        percentile.enum.map (fun ip =>
          { x := s.speed_range, y := percentileAxis1 ip.2 s.magnitude
            color := .c1 ip.1, alpha := 0.6, width := 2.5, label := .pct ip.2 }))
      ++ (if conf_interval = [] then [] else
           conf_interval.enum.flatMap (fun ip =>
             [{ x := s.speed_range, y := percentileAxis1 (50 + ip.2 / 2) s.magnitude
                color := .c1 ip.1, alpha := 0.6, width := 2.5, label := .conf ip.2 },
              { x := s.speed_range, y := percentileAxis1 (50 - ip.2 / 2) s.magnitude
                color := .c1 ip.1, alpha := 0.6, width := 2.5, label := .conf ip.2 }]))
      ++ [{ x := s.speed_range, y := meanAxis1 s.magnitude
            color := .black, alpha := 1.0, width := 3, label := .mean }] })

/-- Embedding of `ST_FrequencyResponseResults.plot_phase`: same pattern over `phase`;
the confidence loop is not guarded by an emptiness test in the source
(which makes no behavioural difference). -/
def ST_FrequencyResponseResults.plot_phase (s : ST_FrequencyResponseResults)
    (percentile conf_interval : List ℚ) :
    ST_FrequencyResponseResults × Fig :=
  (s,
  { title := "Frequency Response - Phase"
    xLabel := "Frequency"
    yLabel := "Phase angle"
    curves :=
      (if percentile = [] then [] else
        percentile.enum.map (fun ip =>
          { x := s.speed_range, y := percentileAxis1 ip.2 s.phase
            color := .c1 ip.1, alpha := 0.6, width := 2.5, label := .pct ip.2 }))
      ++ conf_interval.enum.flatMap (fun ip =>
           [{ x := s.speed_range, y := percentileAxis1 (50 + ip.2 / 2) s.phase
              color := .c1 ip.1, alpha := 0.6, width := 2.5, label := .conf ip.2 },
            { x := s.speed_range, y := percentileAxis1 (50 - ip.2 / 2) s.phase
              color := .c1 ip.1, alpha := 0.6, width := 2.5, label := .conf ip.2 }])
      ++ [{ x := s.speed_range, y := meanAxis1 s.phase
            color := .black, alpha := 1.0, width := 3, label := .mean }] })

/-- Embedding of `ST_FrequencyResponseResults.plot`: grid (one column) of the magnitude
and phase figures produced with the same arguments. -/
def ST_FrequencyResponseResults.plot (s : ST_FrequencyResponseResults)
    (percentile conf_interval : List ℚ) (units : String) :
    ST_FrequencyResponseResults × Grid :=
  (s, gridplot [[(ST_FrequencyResponseResults.plot_magnitude s percentile conf_interval units).2],
                [(ST_FrequencyResponseResults.plot_phase s percentile conf_interval).2]])

/-- Embedding of `ST_TimeResponseResults.__init__`: stored state.  `yout` has shape
`(N, len(time_range), dofs)`; a node is a python int, modelled as `ℕ`. -/
structure ST_TimeResponseResults : Type where
  time_range : List ℚ
  yout : List (List (List ℚ))
  xout : List (List (List ℚ))
  nodes_list : List ℕ
  nodes_pos : List ℚ
deriving DecidableEq

/-- The 2-d slice `yout[..., dof]`, of shape `(N, len(time_range))`. -/
def youtDof (s : ST_TimeResponseResults) (dof : ℕ) : List (List ℚ) :=
  s.yout.map (fun real => real.map (fun row => row.getD dof 0))

/-- Degree-of-freedom letter from `dof % 4` (`x`, `y`, `α`, `β`). -/
def obsDof (dof : ℕ) : String :=
  if dof % 4 = 0 then "x"
  else if dof % 4 = 1 then "y"
  else if dof % 4 = 2 then "α"
  else "β"

/-- Body of `ST_TimeResponseResults._plot_time_response` for an integer
`dof`: percentile curves, confidence pairs at `50 ± p/2` and the mean
curve, all reduced along axis 0 of `yout[..., dof]`; neither loop is
guarded by an emptiness test in the source. -/
def ST_TimeResponseResults.time_response_fig (s : ST_TimeResponseResults)
    (dof : ℕ) (percentile conf_interval : List ℚ) : Fig :=
  { title := "Response for node " ++ toString (dof / 4)
      ++ " and degree of freedom " ++ obsDof dof
    xLabel := "Time (s)"
    yLabel := "Amplitude"
    curves :=
      percentile.enum.map (fun ip =>
        { x := s.time_range, y := percentileAxis0 ip.2 (youtDof s dof)
          color := .c1 ip.1, alpha := 0.6, width := 2.5, label := .pct ip.2 })
      ++ conf_interval.enum.flatMap (fun ip =>
           [{ x := s.time_range, y := percentileAxis0 (50 + ip.2 / 2) (youtDof s dof)
              color := .c1 ip.1, alpha := 0.6, width := 2.5, label := .conf ip.2 },
            { x := s.time_range, y := percentileAxis0 (50 - ip.2 / 2) (youtDof s dof)
              color := .c1 ip.1, alpha := 0.6, width := 2.5, label := .conf ip.2 }])
      ++ [{ x := s.time_range, y := meanAxis0 (youtDof s dof)
            color := .black, alpha := 1.0, width := 3, label := .mean }] }

/-- Embedding of `ST_TimeResponseResults._plot_time_response`.  When called (through
`plot`) with `dof=None`, the python expression `dof % 4` raises
`TypeError` before any figure is built; an integer `dof` yields the
figure. -/
def ST_TimeResponseResults._plot_time_response (s : ST_TimeResponseResults)
    (dof : Option ℕ) (percentile conf_interval : List ℚ) :
    ST_TimeResponseResults × Except PyErr Fig :=
  (s, match dof with
      | none => .error .typeError
      | some d => .ok (ST_TimeResponseResults.time_response_fig s d percentile conf_interval))

/-- Embedding of `ST_TimeResponseResults._plot_orbit_2d`.  Note that the percentile
loop of the source draws a single curve per `p` whose x and y data are the
`50 + p/2` percentile (not the `p`-th percentile) of the two dofs
`4*node` and `4*node + 1`; this is transcribed as-is. -/
def ST_TimeResponseResults._plot_orbit_2d (s : ST_TimeResponseResults)
    (node : ℕ) (percentile conf_interval : List ℚ) :
    ST_TimeResponseResults × Fig :=
  (s,
  { title := "Rotor Orbit: node " ++ toString node
    xLabel := "Amplitude"
    yLabel := "Amplitude"
    curves :=
      percentile.enum.map (fun ip =>
        { x := percentileAxis0 (50 + ip.2 / 2) (youtDof s (4 * node))
          y := percentileAxis0 (50 + ip.2 / 2) (youtDof s (4 * node + 1))
          color := .c2 ip.1, alpha := 0.6, width := 2.5, label := .pct ip.2 })
      ++ conf_interval.enum.flatMap (fun ip =>
           [{ x := percentileAxis0 (50 + ip.2 / 2) (youtDof s (4 * node))
              y := percentileAxis0 (50 + ip.2 / 2) (youtDof s (4 * node + 1))
              color := .c1 ip.1, alpha := 0.6, width := 2.5, label := .conf ip.2 },
            { x := percentileAxis0 (50 - ip.2 / 2) (youtDof s (4 * node))
              y := percentileAxis0 (50 - ip.2 / 2) (youtDof s (4 * node + 1))
              color := .c1 ip.1, alpha := 0.6, width := 2.5, label := .conf ip.2 }])
      ++ [{ x := meanAxis0 (youtDof s (4 * node))
            y := meanAxis0 (youtDof s (4 * node + 1))
            color := .black, alpha := 1.0, width := 3, label := .mean }] })

/-- Axes content of `ST_TimeResponseResults._plot_orbit_3d` when it
completes: the centre line, then per percentile and node one curve, then
per confidence value and node the `50 ± p/2` pair, then per node the mean
curve. -/
def ST_TimeResponseResults.orbit3d_axes (s : ST_TimeResponseResults)
    (percentile conf_interval : List ℚ) : MplAxes :=
  { title := "Rotor Orbits"
    xLabel := "Rotor length (m)"
    yLabel := "Amplitude - X direction (m)"
    zLabel := "Amplitude - Y direction (m)"
    curves :=
      [{ x := List.replicate s.nodes_pos.length 0
         y := List.replicate s.nodes_pos.length 0
         z := .arr s.nodes_pos, color := .black, label := none }]
      ++ percentile.enum.flatMap (fun ip =>
           s.nodes_list.map (fun n =>
             { x := percentileAxis0 ip.2 (youtDof s (4 * n))
               y := percentileAxis0 ip.2 (youtDof s (4 * n + 1))
               z := .scalar (s.nodes_pos.getD n 0)
               color := .tab20c ip.1, label := some (.pct ip.2) }))
      ++ conf_interval.enum.flatMap (fun ip =>
           s.nodes_list.flatMap (fun n =>
             [{ x := percentileAxis0 (50 + ip.2 / 2) (youtDof s (4 * n))
                y := percentileAxis0 (50 + ip.2 / 2) (youtDof s (4 * n + 1))
                z := .scalar (s.nodes_pos.getD n 0)
                color := .tab10 ip.1, label := some (.conf ip.2) },
              { x := percentileAxis0 (50 - ip.2 / 2) (youtDof s (4 * n))
                y := percentileAxis0 (50 - ip.2 / 2) (youtDof s (4 * n + 1))
                z := .scalar (s.nodes_pos.getD n 0)
                color := .tab10 ip.1, label := some (.conf ip.2) }]))
      ++ s.nodes_list.map (fun n =>
           { x := meanAxis0 (youtDof s (4 * n))
             y := meanAxis0 (youtDof s (4 * n + 1))
             z := .scalar (s.nodes_pos.getD n 0)
             color := .black, label := some .mean }) }

/-- Embedding of `ST_TimeResponseResults._plot_orbit_3d`.  The mean loop of the source
evaluates `"Mean".format(p)` where `p` is the loop variable of the two
preceding `for` loops: if both `percentile` and `conf_interval` are empty
(the defaults) and `nodes_list` is not, `p` was never bound and python
raises `NameError`; otherwise the axes content is produced. -/
def ST_TimeResponseResults._plot_orbit_3d (s : ST_TimeResponseResults)
    (percentile conf_interval : List ℚ) :
    ST_TimeResponseResults × Except PyErr MplAxes :=
  (s, if s.nodes_list ≠ [] ∧ percentile = [] ∧ conf_interval = [] then
        .error .nameError
      else
        .ok (ST_TimeResponseResults.orbit3d_axes s percentile conf_interval))

/-- Result of `ST_TimeResponseResults.plot`: a bokeh figure (1d / 2d) or
matplotlib axes (3d). -/
inductive TRRes : Type
  | bokeh (f : Fig)
  | mpl (a : MplAxes)
deriving DecidableEq

/-- Python membership test `node in self.nodes_list` for an optional node
(`None` is never a member of a list of ints). -/
def nodeMem (node : Option ℕ) (l : List ℕ) : Bool :=
  match node with
  | none => false
  | some v => decide (v ∈ l)

/-- Embedding of `ST_TimeResponseResults.plot`: dispatch on `plot_type`, raising
`ValueError` for a 2-d plot whose node is not in `nodes_list` and for an
unknown plot type. -/
def ST_TimeResponseResults.plot (s : ST_TimeResponseResults)
    (plot_type : String) (node : Option ℕ) (dof : Option ℕ)
    (percentile conf_interval : List ℚ) :
    ST_TimeResponseResults × Except PyErr TRRes :=
  (s,
    if plot_type = "1d" then
      ((ST_TimeResponseResults._plot_time_response s dof percentile conf_interval).2).map TRRes.bokeh
    else if plot_type = "2d" then
      match node with
      | some nd =>
          if nd ∈ s.nodes_list then
            .ok (.bokeh (ST_TimeResponseResults._plot_orbit_2d s nd percentile conf_interval).2)
          else .error (.valueError "Please insert a valid node.")
      | none => .error (.valueError "Please insert a valid node.")
    else if plot_type = "3d" then
      ((ST_TimeResponseResults._plot_orbit_3d s percentile conf_interval).2).map TRRes.mpl
    else
      .error (.valueError "Plot type not supported. Choose between '2d' or '3d'."))

/-- Embedding of `ST_ForcedResponseResults.__init__`: stored state.  `magnitude` and
`phase` have shape `(N, len(frequency_range), dofs)`. -/
structure ST_ForcedResponseResults : Type where
  forced_resp : List (List (List ℚ))
  magnitude : List (List (List ℚ))
  phase : List (List (List ℚ))
  frequency_range : List ℚ
deriving DecidableEq

/-- The 2-d slice `magnitude[..., dof]` (or `phase[..., dof]`). -/
def sliceDof (m : List (List (List ℚ))) (dof : ℕ) : List (List ℚ) :=
  m.map (fun real => real.map (fun row => row.getD dof 0))

/-- Embedding of `ST_ForcedResponseResults.plot_magnitude`: the `plot_magnitude`
pattern over `magnitude[..., dof]`, reduced along axis 0. -/
def ST_ForcedResponseResults.plot_magnitude (s : ST_ForcedResponseResults)
    (dof : ℕ) (percentile conf_interval : List ℚ) (units : String) :
    ST_ForcedResponseResults × Fig :=
  (s,
  { title := "Unbalance Response - Magnitude"
    xLabel := "Frequency"
    yLabel := magnitudeYLabel units
    curves :=
      (if percentile = [] then [] else
        percentile.enum.map (fun ip =>
          { x := s.frequency_range, y := percentileAxis0 ip.2 (sliceDof s.magnitude dof)
            color := .c1 ip.1, alpha := 0.6, width := 2.5, label := .pct ip.2 }))
      ++ (if conf_interval = [] then [] else
           conf_interval.enum.flatMap (fun ip =>
             [{ x := s.frequency_range
                y := percentileAxis0 (50 + ip.2 / 2) (sliceDof s.magnitude dof)
                color := .c1 ip.1, alpha := 0.6, width := 2.5, label := .conf ip.2 },
              { x := s.frequency_range
                y := percentileAxis0 (50 - ip.2 / 2) (sliceDof s.magnitude dof)
                color := .c1 ip.1, alpha := 0.6, width := 2.5, label := .conf ip.2 }]))
      ++ [{ x := s.frequency_range, y := meanAxis0 (sliceDof s.magnitude dof)
            color := .black, alpha := 1.0, width := 3, label := .mean }] })

/-- Embedding of `ST_ForcedResponseResults.plot_phase`: same over `phase[..., dof]`. -/
def ST_ForcedResponseResults.plot_phase (s : ST_ForcedResponseResults)
    (dof : ℕ) (percentile conf_interval : List ℚ) :
    ST_ForcedResponseResults × Fig :=
  (s,
  { title := "Unbalance Response - Phase"
    xLabel := "Frequency"
    yLabel := "Phase angle"
    curves :=
      (if percentile = [] then [] else
        percentile.enum.map (fun ip =>
          { x := s.frequency_range, y := percentileAxis0 ip.2 (sliceDof s.phase dof)
            color := .c1 ip.1, alpha := 0.6, width := 2.5, label := .pct ip.2 }))
      ++ conf_interval.enum.flatMap (fun ip =>
           [{ x := s.frequency_range
              y := percentileAxis0 (50 + ip.2 / 2) (sliceDof s.phase dof)
              color := .c1 ip.1, alpha := 0.6, width := 2.5, label := .conf ip.2 },
            { x := s.frequency_range
              y := percentileAxis0 (50 - ip.2 / 2) (sliceDof s.phase dof)
              color := .c1 ip.1, alpha := 0.6, width := 2.5, label := .conf ip.2 }])
      ++ [{ x := s.frequency_range, y := meanAxis0 (sliceDof s.phase dof)
            color := .black, alpha := 1.0, width := 3, label := .mean }] })

/-- Embedding of `ST_ForcedResponseResults.plot`: grid (one column) of the magnitude
and phase figures produced with the same arguments. -/
def ST_ForcedResponseResults.plot (s : ST_ForcedResponseResults)
    (dof : ℕ) (percentile conf_interval : List ℚ) (units : String) :
    ST_ForcedResponseResults × Grid :=
  (s, gridplot [[(ST_ForcedResponseResults.plot_magnitude s dof percentile conf_interval units).2],
                [(ST_ForcedResponseResults.plot_phase s dof percentile conf_interval).2]])

/-- Confidence-band curves of a Campbell figure for mode label `j`, as
`(p, y data)` pairs in drawing order. -/
def confPairsMode (f : Fig) (j : ℕ) : List (ℚ × List ℚ) :=
  f.curves.filterMap (fun c =>
    match c.label with
    | .confMode p j0 => if j0 = j then some (p, c.y) else none
    | _ => none)

/-- Confidence-band curves of a figure, as `(p, y data)` pairs in drawing
order. -/
def confData (f : Fig) : List (ℚ × List ℚ) :=
  f.curves.filterMap (fun c =>
    match c.label with
    | .conf p => some (p, c.y)
    | _ => none)

/-- Confidence-band curves of a figure, as `(p, x data, y data)` triples
in drawing order (for the parametric orbit plot). -/
def confDataXY (f : Fig) : List (ℚ × List ℚ × List ℚ) :=
  f.curves.filterMap (fun c =>
    match c.label with
    | .conf p => some (p, c.x, c.y)
    | _ => none)

/-- Percentile curves of a figure, as `(p, x data, y data)` triples in
drawing order. -/
def pctDataXY (f : Fig) : List (ℚ × List ℚ × List ℚ) :=
  f.curves.filterMap (fun c =>
    match c.label with
    | .pct p => some (p, c.x, c.y)
    | _ => none)

/-- The percentile values labelling the percentile curves of a figure, in
drawing order. -/
def pctParams (f : Fig) : List ℚ :=
  f.curves.filterMap (fun c =>
    match c.label with
    | .pct p => some p
    | _ => none)

/-- Confidence-band curves of 3-d axes, as `(p, x data, y data)` triples
in drawing order. -/
def confData3 (a : MplAxes) : List (ℚ × List ℚ × List ℚ) :=
  a.curves.filterMap (fun c =>
    match c.label with
    | some (.conf p) => some (p, c.x, c.y)
    | _ => none)

/-- Whether a result is a raised `ValueError`. -/
def isValueError {α : Type} : Except PyErr α → Bool
  | .error (.valueError _) => true
  | _ => false

/-- A small concrete Campbell state: one mode, one speed, ensemble
`[0, 100]`. -/
def sCw : ST_CampbellResults := ⟨[0], [[[0, 100]]], [[[0, 100]]]⟩

/-- A small concrete frequency-response state: one speed, ensemble
`[0, 100]`. -/
def sFw : ST_FrequencyResponseResults := ⟨[0], [[0, 100]], [[0, 100]]⟩

/-- A small concrete time-response state: two realizations, one time
sample, two dofs, node list `[0]`. -/
def sTw : ST_TimeResponseResults := ⟨[0], [[[0, 0]], [[100, 100]]], [], [0], [0]⟩

theorem aux_filterMap_enumFrom_flatMap {α β γ : Type} (f : β → Option γ)
    (g : ℕ × α → List β) (F : α → List γ)
    (hF : ∀ i a, List.filterMap f (g (i, a)) = F a) :
    ∀ (n : ℕ) (l : List α),
      List.filterMap f ((List.enumFrom n l).flatMap g) = l.flatMap F := by
  intro n l
  induction l generalizing n with
  | nil => simp
  | cons a as ih =>
      simp [List.enumFrom_cons, List.flatMap_cons, List.filterMap_append, hF, ih]

theorem aux_filterMap_enumFrom_map {α β γ : Type} (f : β → Option γ)
    (g : ℕ × α → β) (F : α → Option γ)
    (hF : ∀ i a, f (g (i, a)) = F a) :
    ∀ (n : ℕ) (l : List α),
      List.filterMap f ((List.enumFrom n l).map g) = l.filterMap F := by
  intro n l
  induction l generalizing n with
  | nil => simp
  | cons a as ih =>
      simp only [List.enumFrom_cons, List.map_cons, List.filterMap_cons, hF, ih]

theorem aux_flatMap_if_single {β : Type} (n j : ℕ) (L : List β) :
    (List.range n).flatMap (fun i => if i = j then L else [])
      = if j < n then L else [] := by
  induction n with
  | zero => simp
  | succ m ih =>
      rw [List.range_succ]
      simp only [List.flatMap_append, List.flatMap_cons, List.flatMap_nil,
        List.append_nil, ih]
      rcases lt_trichotomy j m with h | h | h
      · rw [if_pos h, if_neg (by omega), if_pos (by omega)]
        simp
      · subst h
        rw [if_neg (by omega), if_pos rfl, if_pos (by omega)]
        simp
      · rw [if_neg (by omega), if_neg (by omega), if_neg (by omega)]
        simp

theorem aux_getD_mono_of_sorted {s : List ℚ} (hs : s.Sorted (· ≤ ·)) {i j : ℕ}
    (hij : i ≤ j) (hj : j < s.length) : s.getD i 0 ≤ s.getD j 0 := by
  rcases Nat.eq_or_lt_of_le hij with rfl | hlt
  · exact le_refl _
  · have hi : i < s.length := lt_trans hlt hj
    rw [List.getD_eq_getElem s 0 hi, List.getD_eq_getElem s 0 hj]
    have := List.Sorted.rel_get_of_lt hs (a := ⟨i, hi⟩) (b := ⟨j, hj⟩) (by exact hlt)
    simpa using this

theorem aux_sortQ_sorted (l : List ℚ) : (sortQ l).Sorted (· ≤ ·) :=
  List.sorted_insertionSort _ l

theorem aux_sortQ_length (l : List ℚ) : (sortQ l).length = l.length :=
  (List.perm_insertionSort _ l).length_eq

theorem aux_interpAt_nil (h : ℚ) : interpAt [] h = 0 := by
  simp [interpAt]

theorem aux_interpAt_mono {s : List ℚ} (hs : s.Sorted (· ≤ ·)) {h1 h2 : ℚ}
    (h0 : 0 ≤ h1) (h12 : h1 ≤ h2) (hub : h2 ≤ (s.length : ℚ) - 1) :
    interpAt s h1 ≤ interpAt s h2 := by
  have hn : 1 ≤ s.length := by
    rcases Nat.eq_zero_or_pos s.length with h | h
    · exfalso
      rw [h] at hub
      norm_num at hub
      linarith
    · exact h
  have hf1 : (0:ℤ) ≤ ⌊h1⌋ := Int.floor_nonneg.mpr h0
  have hf2 : (0:ℤ) ≤ ⌊h2⌋ := Int.floor_nonneg.mpr (le_trans h0 h12)
  have key1 : (((⌊h1⌋).toNat : ℚ)) = ((⌊h1⌋ : ℤ) : ℚ) := by
    exact_mod_cast congrArg (fun z => ((z : ℤ) : ℚ)) (Int.toNat_of_nonneg hf1)
  have key2 : (((⌊h2⌋).toNat : ℚ)) = ((⌊h2⌋ : ℤ) : ℚ) := by
    exact_mod_cast congrArg (fun z => ((z : ℤ) : ℚ)) (Int.toNat_of_nonneg hf2)
  simp only [interpAt]
  set i1 := (⌊h1⌋).toNat with hi1def
  set i2 := (⌊h2⌋).toNat with hi2def
  have hle1 : (i1 : ℚ) ≤ h1 := by rw [key1]; exact Int.floor_le h1
  have hle2 : (i2 : ℚ) ≤ h2 := by rw [key2]; exact Int.floor_le h2
  have hlt1 : h1 < (i1 : ℚ) + 1 := by rw [key1]; exact Int.lt_floor_add_one h1
  have hlt2 : h2 < (i2 : ℚ) + 1 := by rw [key2]; exact Int.lt_floor_add_one h2
  have hi1ub : i1 ≤ s.length - 1 := by
    have hq : (i1 : ℚ) ≤ ((s.length - 1 : ℕ) : ℚ) := by
      rw [Nat.cast_sub hn]
      push_cast
      linarith
    exact_mod_cast hq
  have hi2ub : i2 ≤ s.length - 1 := by
    have hq : (i2 : ℚ) ≤ ((s.length - 1 : ℕ) : ℚ) := by
      rw [Nat.cast_sub hn]
      push_cast
      linarith
    exact_mod_cast hq
  have h12i : i1 ≤ i2 := by
    rw [hi1def, hi2def]
    exact Int.toNat_le_toNat (Int.floor_le_floor h12)
  have hlh1 : s.getD i1 0 ≤ s.getD (min (i1 + 1) (s.length - 1)) 0 :=
    aux_getD_mono_of_sorted hs (by omega) (by omega)
  have hlh2 : s.getD i2 0 ≤ s.getD (min (i2 + 1) (s.length - 1)) 0 :=
    aux_getD_mono_of_sorted hs (by omega) (by omega)
  rcases Nat.eq_or_lt_of_le h12i with he | hlt
  · rw [he]
    have hmul := mul_le_mul_of_nonneg_right (sub_le_sub_right h12 ((i2 : ℚ)))
      (sub_nonneg.mpr hlh2)
    linarith
  · have hup1 : s.getD i1 0
        + (h1 - (i1 : ℚ)) * (s.getD (min (i1 + 1) (s.length - 1)) 0 - s.getD i1 0)
        ≤ s.getD (min (i1 + 1) (s.length - 1)) 0 := by
      have hmul := mul_le_mul_of_nonneg_right (show h1 - (i1 : ℚ) ≤ 1 by linarith)
        (sub_nonneg.mpr hlh1)
      linarith
    have hmid : s.getD (min (i1 + 1) (s.length - 1)) 0 ≤ s.getD i2 0 :=
      aux_getD_mono_of_sorted hs (by omega) (by omega)
    have hlow2 : s.getD i2 0
        ≤ s.getD i2 0
          + (h2 - (i2 : ℚ)) * (s.getD (min (i2 + 1) (s.length - 1)) 0 - s.getD i2 0) := by
      have hmul := mul_nonneg (show (0:ℚ) ≤ h2 - (i2 : ℚ) by linarith)
        (sub_nonneg.mpr hlh2)
      linarith
    linarith

theorem aux_percentile_mono (l : List ℚ) {q1 q2 : ℚ}
    (h0 : 0 ≤ q1) (h12 : q1 ≤ q2) (h100 : q2 ≤ 100) :
    percentile q1 l ≤ percentile q2 l := by
  by_cases hl : sortQ l = []
  · simp [percentile, hl, aux_interpAt_nil]
  · have hs := aux_sortQ_sorted l
    have hn : 0 < (sortQ l).length := List.length_pos.mpr hl
    have hc : (0:ℚ) ≤ ((sortQ l).length : ℚ) - 1 := by
      have h1 : (1:ℚ) ≤ ((sortQ l).length : ℚ) := by exact_mod_cast hn
      linarith
    apply aux_interpAt_mono hs
    · exact div_nonneg (mul_nonneg h0 hc) (by norm_num)
    · have hmul := mul_le_mul_of_nonneg_right h12 hc
      linarith
    · have hmul := mul_le_mul_of_nonneg_right h100 hc
      linarith

theorem aux_percentileAxis1_mono {q1 q2 : ℚ} (m : List (List ℚ))
    (h0 : 0 ≤ q1) (h12 : q1 ≤ q2) (h100 : q2 ≤ 100) (t : ℕ) :
    (percentileAxis1 q1 m).getD t 0 ≤ (percentileAxis1 q2 m).getD t 0 := by
  unfold percentileAxis1
  rcases lt_or_ge t m.length with ht | ht
  · rw [List.getD_eq_getElem _ _ (by simpa using ht),
      List.getD_eq_getElem _ _ (by simpa using ht)]
    simp only [List.getElem_map]
    exact aux_percentile_mono _ h0 h12 h100
  · rw [List.getD_eq_default _ _ (by simpa using ht),
      List.getD_eq_default _ _ (by simpa using ht)]

theorem aux_percentileAxis0_mono {q1 q2 : ℚ} (m : List (List ℚ))
    (h0 : 0 ≤ q1) (h12 : q1 ≤ q2) (h100 : q2 ≤ 100) (t : ℕ) :
    (percentileAxis0 q1 m).getD t 0 ≤ (percentileAxis0 q2 m).getD t 0 := by
  unfold percentileAxis0
  rcases lt_or_ge t (ncols m) with ht | ht
  · rw [List.getD_eq_getElem _ _ (by simp [ht]),
      List.getD_eq_getElem _ _ (by simp [ht])]
    simp only [List.getElem_map, List.getElem_range]
    exact aux_percentile_mono _ h0 h12 h100
  · rw [List.getD_eq_default _ _ (by simpa using ht),
      List.getD_eq_default _ _ (by simpa using ht)]

theorem aux_enumFrom_flatMap_snd {α β : Type} (F : α → List β) :
    ∀ (n : ℕ) (l : List α),
      (List.enumFrom n l).flatMap (fun ip => F ip.2) = l.flatMap F := by
  intro n l
  induction l generalizing n with
  | nil => simp
  | cons a as ih => simp [List.enumFrom_cons, List.flatMap_cons, ih]

theorem aux_enum_flatMap_snd {α β : Type} (F : α → List β) (l : List α) :
    l.enum.flatMap (fun ip => F ip.2) = l.flatMap F :=
  aux_enumFrom_flatMap_snd F 0 l

theorem aux_filterMap_const_none {α β : Type} (l : List α) :
    List.filterMap (fun _ => (none : Option β)) l = [] := by
  induction l with
  | nil => rfl
  | cons a as ih => simp [ih]

theorem aux_flatMap_const_nil {α β : Type} (l : List α) :
    l.flatMap (fun _ => ([] : List β)) = [] := by
  induction l with
  | nil => rfl
  | cons a as ih => simp [ih]

theorem aux_confData_plot_magnitude (s : ST_FrequencyResponseResults)
    (pct ci : List ℚ) (u : String) :
    confData (ST_FrequencyResponseResults.plot_magnitude s pct ci u).2 =
      ci.flatMap (fun p =>
        [(p, percentileAxis1 (50 + p / 2) s.magnitude),
         (p, percentileAxis1 (50 - p / 2) s.magnitude)]) := by
  by_cases hp : pct = [] <;> by_cases hc : ci = [] <;>
    simp [confData, ST_FrequencyResponseResults.plot_magnitude, hp, hc,
      List.filterMap_append, List.filterMap_map, List.filterMap_flatMap,
      Function.comp_def, aux_filterMap_const_none] <;>
    exact aux_enum_flatMap_snd (fun p =>
      [(p, percentileAxis1 (50 + p / 2) s.magnitude),
       (p, percentileAxis1 (50 - p / 2) s.magnitude)]) ci

theorem aux_confData_plot_phase (s : ST_FrequencyResponseResults)
    (pct ci : List ℚ) :
    confData (ST_FrequencyResponseResults.plot_phase s pct ci).2 =
      ci.flatMap (fun p =>
        [(p, percentileAxis1 (50 + p / 2) s.phase),
         (p, percentileAxis1 (50 - p / 2) s.phase)]) := by
  by_cases hp : pct = [] <;>
    simp [confData, ST_FrequencyResponseResults.plot_phase, hp,
      List.filterMap_append, List.filterMap_map, List.filterMap_flatMap,
      Function.comp_def, aux_filterMap_const_none] <;>
    exact aux_enum_flatMap_snd (fun p =>
      [(p, percentileAxis1 (50 + p / 2) s.phase),
       (p, percentileAxis1 (50 - p / 2) s.phase)]) ci

theorem aux_confData_time_response (s : ST_TimeResponseResults) (dof : ℕ)
    (pct ci : List ℚ) :
    confData (ST_TimeResponseResults.time_response_fig s dof pct ci) =
      ci.flatMap (fun p =>
        [(p, percentileAxis0 (50 + p / 2) (youtDof s dof)),
         (p, percentileAxis0 (50 - p / 2) (youtDof s dof))]) := by
  simp [confData, ST_TimeResponseResults.time_response_fig,
    List.filterMap_append, List.filterMap_map, List.filterMap_flatMap,
    Function.comp_def, aux_filterMap_const_none]
  exact aux_enum_flatMap_snd (fun p =>
    [(p, percentileAxis0 (50 + p / 2) (youtDof s dof)),
     (p, percentileAxis0 (50 - p / 2) (youtDof s dof))]) ci

theorem aux_confDataXY_orbit2d (s : ST_TimeResponseResults) (node : ℕ)
    (pct ci : List ℚ) :
    confDataXY (ST_TimeResponseResults._plot_orbit_2d s node pct ci).2 =
      ci.flatMap (fun p =>
        [(p, percentileAxis0 (50 + p / 2) (youtDof s (4 * node)),
             percentileAxis0 (50 + p / 2) (youtDof s (4 * node + 1))),
         (p, percentileAxis0 (50 - p / 2) (youtDof s (4 * node)),
             percentileAxis0 (50 - p / 2) (youtDof s (4 * node + 1)))]) := by
  simp [confDataXY, ST_TimeResponseResults._plot_orbit_2d,
    List.filterMap_append, List.filterMap_map, List.filterMap_flatMap,
    Function.comp_def, aux_filterMap_const_none]
  exact aux_enum_flatMap_snd (fun p =>
    [(p, percentileAxis0 (50 + p / 2) (youtDof s (4 * node)),
         percentileAxis0 (50 + p / 2) (youtDof s (4 * node + 1))),
     (p, percentileAxis0 (50 - p / 2) (youtDof s (4 * node)),
         percentileAxis0 (50 - p / 2) (youtDof s (4 * node + 1)))]) ci

theorem aux_confData3_orbit3d (s : ST_TimeResponseResults)
    (pct ci : List ℚ) :
    confData3 (ST_TimeResponseResults.orbit3d_axes s pct ci) =
      ci.flatMap (fun p =>
        s.nodes_list.flatMap (fun n =>
          [(p, percentileAxis0 (50 + p / 2) (youtDof s (4 * n)),
               percentileAxis0 (50 + p / 2) (youtDof s (4 * n + 1))),
           (p, percentileAxis0 (50 - p / 2) (youtDof s (4 * n)),
               percentileAxis0 (50 - p / 2) (youtDof s (4 * n + 1)))])) := by
  simp [confData3, ST_TimeResponseResults.orbit3d_axes,
    List.filterMap_append, List.filterMap_map, List.filterMap_flatMap,
    Function.comp_def, aux_filterMap_const_none, aux_flatMap_const_nil]
  exact aux_enum_flatMap_snd (fun p =>
    s.nodes_list.flatMap (fun n =>
      [(p, percentileAxis0 (50 + p / 2) (youtDof s (4 * n)),
           percentileAxis0 (50 + p / 2) (youtDof s (4 * n + 1))),
       (p, percentileAxis0 (50 - p / 2) (youtDof s (4 * n)),
           percentileAxis0 (50 - p / 2) (youtDof s (4 * n + 1)))])) ci

theorem aux_confPairsMode_nat_freq (s : ST_CampbellResults)
    (pct ci harm : List ℚ) (j0 : ℕ) :
    confPairsMode (ST_CampbellResults.plot_nat_freq s pct ci harm).2 (j0 + 1) =
      if j0 < s.wd.length then
        ci.flatMap (fun p =>
          [(p, percentileAxis1 (50 + p / 2) (s.wd.getD j0 [])),
           (p, percentileAxis1 (50 - p / 2) (s.wd.getD j0 []))])
      else [] := by
  simp only [confPairsMode, ST_CampbellResults.plot_nat_freq, List.filterMap_flatMap]
  refine Eq.trans (List.flatMap_congr (fun j hj => ?_))
    (aux_flatMap_if_single s.wd.length j0
      (ci.flatMap (fun p =>
        [(p, percentileAxis1 (50 + p / 2) (s.wd.getD j0 [])),
         (p, percentileAxis1 (50 - p / 2) (s.wd.getD j0 []))])))
  by_cases hjj : j = j0
  · subst hjj
    rw [if_pos rfl]
    by_cases hp : pct = [] <;> by_cases hc : ci = [] <;>
      simp [hp, hc, List.filterMap_append, List.filterMap_map, List.filterMap_flatMap,
        Function.comp_def, aux_filterMap_const_none, -List.getD_eq_getElem?_getD] <;>
      exact aux_enum_flatMap_snd (fun p =>
        [(p, percentileAxis1 (50 + p / 2) (s.wd.getD j [])),
         (p, percentileAxis1 (50 - p / 2) (s.wd.getD j []))]) ci
  · rw [if_neg hjj]
    by_cases hp : pct = [] <;> by_cases hc : ci = [] <;>
      simp [hp, hc, hjj, add_left_inj, List.filterMap_append, List.filterMap_map,
        List.filterMap_flatMap, Function.comp_def, aux_filterMap_const_none,
        aux_flatMap_const_nil]

theorem aux_confPairsMode_log_dec (s : ST_CampbellResults)
    (pct ci harm : List ℚ) (j0 : ℕ) :
    confPairsMode (ST_CampbellResults.plot_log_dec s pct ci harm).2 (j0 + 1) =
      if j0 < s.log_dec.length then
        (sortQ ci).flatMap (fun p =>
          [(p, percentileAxis1 (50 + p / 2) (s.log_dec.getD j0 [])),
           (p, percentileAxis1 (50 - p / 2) (s.log_dec.getD j0 []))])
      else [] := by
  simp only [confPairsMode, ST_CampbellResults.plot_log_dec, List.filterMap_flatMap]
  refine Eq.trans (List.flatMap_congr (fun j hj => ?_))
    (aux_flatMap_if_single s.log_dec.length j0
      ((sortQ ci).flatMap (fun p =>
        [(p, percentileAxis1 (50 + p / 2) (s.log_dec.getD j0 [])),
         (p, percentileAxis1 (50 - p / 2) (s.log_dec.getD j0 []))])))
  by_cases hjj : j = j0
  · subst hjj
    rw [if_pos rfl]
    by_cases hp : sortQ pct = [] <;> by_cases hc : sortQ ci = [] <;>
      simp [hp, hc, List.filterMap_append, List.filterMap_map, List.filterMap_flatMap,
        Function.comp_def, aux_filterMap_const_none, -List.getD_eq_getElem?_getD] <;>
      exact aux_enum_flatMap_snd (fun p =>
        [(p, percentileAxis1 (50 + p / 2) (s.log_dec.getD j [])),
         (p, percentileAxis1 (50 - p / 2) (s.log_dec.getD j []))]) (sortQ ci)
  · rw [if_neg hjj]
    by_cases hp : sortQ pct = [] <;> by_cases hc : sortQ ci = [] <;>
      simp [hp, hc, hjj, add_left_inj, List.filterMap_append, List.filterMap_map,
        List.filterMap_flatMap, Function.comp_def, aux_filterMap_const_none,
        aux_flatMap_const_nil]

theorem aux_mem_enum_of_mem {α : Type} {p : α} {l : List α} (h : p ∈ l) :
    ∃ i, (i, p) ∈ l.enum := by
  obtain ⟨i, hi⟩ := List.mem_iff_getElem?.mp h
  exact ⟨i, List.mem_enum_iff_getElem?.mpr hi⟩

theorem aux_nat_freq_curves (s : ST_CampbellResults) (pct ci harm : List ℚ) :
    ((ST_CampbellResults.plot_nat_freq s pct ci harm).2).curves =
      uniformCampbellPattern s.speed_range s.wd pct ci := rfl

theorem aux_log_dec_curves (s : ST_CampbellResults) (pct ci harm : List ℚ) :
    ((ST_CampbellResults.plot_log_dec s pct ci harm).2).curves =
      uniformCampbellPattern s.speed_range s.log_dec (sortQ pct) (sortQ ci) := rfl

theorem aux_campbell_curve_shape (spd : List ℚ) (data : List (List (List ℚ)))
    (pct ci : List ℚ)
    (hdata : ∀ j, j < data.length → (data.getD j []).length = spd.length) :
    ∀ c ∈ uniformCampbellPattern spd data pct ci,
      c.x = spd ∧ c.y.length = spd.length := by
  intro c hc
  simp only [uniformCampbellPattern, List.mem_flatMap, List.mem_range] at hc
  obtain ⟨j, hj, hcase⟩ := hc
  have hlen := hdata j hj
  rcases List.mem_append.mp hcase with h12 | hconfm
  · rcases List.mem_append.mp h12 with hm | hpctm
    · obtain rfl := List.mem_singleton.mp hm
      exact ⟨rfl, by simp [meanAxis1, hlen, -List.getD_eq_getElem?_getD]⟩
    · by_cases hp : pct = []
      · simp [hp] at hpctm
      · rw [if_neg hp] at hpctm
        obtain ⟨ip, _, rfl⟩ := List.mem_map.mp hpctm
        exact ⟨rfl, by simp [percentileAxis1, hlen, -List.getD_eq_getElem?_getD]⟩
  · by_cases hci : ci = []
    · simp [hci] at hconfm
    · rw [if_neg hci] at hconfm
      obtain ⟨ip, _, hmem2⟩ := List.mem_flatMap.mp hconfm
      simp only [List.mem_cons, List.not_mem_nil, or_false] at hmem2
      rcases hmem2 with rfl | rfl
      · exact ⟨rfl, by simp [percentileAxis1, hlen, -List.getD_eq_getElem?_getD]⟩
      · exact ⟨rfl, by simp [percentileAxis1, hlen, -List.getD_eq_getElem?_getD]⟩

theorem aux_ncols_youtDof (st : ST_TimeResponseResults) (dof : ℕ)
    (h1 : st.yout ≠ [])
    (h2 : ∀ r ∈ st.yout, r.length = st.time_range.length) :
    ncols (youtDof st dof) = st.time_range.length := by
  cases hy : st.yout with
  | nil => exact absurd hy h1
  | cons r rest =>
      have hr : r.length = st.time_range.length := h2 r (by rw [hy]; exact List.mem_cons_self r rest)
      simp [ncols, youtDof, hy, hr]

theorem aux_time_response_curve_shape (st : ST_TimeResponseResults) (dof : ℕ)
    (pct ci : List ℚ) (h1 : st.yout ≠ [])
    (h2 : ∀ r ∈ st.yout, r.length = st.time_range.length) :
    ∀ c ∈ (ST_TimeResponseResults.time_response_fig st dof pct ci).curves,
      c.x = st.time_range ∧ c.y.length = st.time_range.length := by
  intro c hc
  have hn := aux_ncols_youtDof st dof h1 h2
  simp only [ST_TimeResponseResults.time_response_fig, List.mem_append] at hc
  rcases hc with (hpm | hcm) | hm
  · obtain ⟨ip, _, rfl⟩ := List.mem_map.mp hpm
    exact ⟨rfl, by simp [percentileAxis0, hn]⟩
  · obtain ⟨ip, _, hmem2⟩ := List.mem_flatMap.mp hcm
    simp only [List.mem_cons, List.not_mem_nil, or_false] at hmem2
    rcases hmem2 with rfl | rfl
    · exact ⟨rfl, by simp [percentileAxis0, hn]⟩
    · exact ⟨rfl, by simp [percentileAxis0, hn]⟩
  · obtain rfl := List.mem_singleton.mp hm
    exact ⟨rfl, by simp [meanAxis0, hn]⟩

/-- C1: for every value `p` of the `conf_interval` list passed to any of
the plotting methods, exactly two confidence-band curves are drawn for
`p` (per summarized ensemble, i.e. per mode for the Campbell figures and
per node for the 3-d orbit plot): one at the `50 + p/2` and one at the
`50 - p/2` percentile of the ensemble, computed pointwise along the
ensemble axis.  Stated as exact characterizations of the confidence-band
curves of all seven methods; `plot_log_dec` draws the pairs in ascending
order of `p`, which preserves the set of drawn pairs. -/
theorem confidence_pairs_drawn :
    ∀ (sc : ST_CampbellResults) (sf : ST_FrequencyResponseResults)
      (st : ST_TimeResponseResults) (pct ci harm : List ℚ) (u : String)
      (dof node j : ℕ),
      (j < sc.wd.length →
        confPairsMode (ST_CampbellResults.plot_nat_freq sc pct ci harm).2 (j + 1) =
          ci.flatMap (fun p =>
            [(p, percentileAxis1 (50 + p / 2) (sc.wd.getD j [])),
             (p, percentileAxis1 (50 - p / 2) (sc.wd.getD j []))]))
      ∧ (j < sc.log_dec.length →
          confPairsMode (ST_CampbellResults.plot_log_dec sc pct ci harm).2 (j + 1) =
            (sortQ ci).flatMap (fun p =>
              [(p, percentileAxis1 (50 + p / 2) (sc.log_dec.getD j [])),
               (p, percentileAxis1 (50 - p / 2) (sc.log_dec.getD j []))]))
      ∧ confData (ST_FrequencyResponseResults.plot_magnitude sf pct ci u).2 =
          ci.flatMap (fun p =>
            [(p, percentileAxis1 (50 + p / 2) sf.magnitude),
             (p, percentileAxis1 (50 - p / 2) sf.magnitude)])
      ∧ confData (ST_FrequencyResponseResults.plot_phase sf pct ci).2 =
          ci.flatMap (fun p =>
            [(p, percentileAxis1 (50 + p / 2) sf.phase),
             (p, percentileAxis1 (50 - p / 2) sf.phase)])
      ∧ confData (ST_TimeResponseResults.time_response_fig st dof pct ci) =
          ci.flatMap (fun p =>
            [(p, percentileAxis0 (50 + p / 2) (youtDof st dof)),
             (p, percentileAxis0 (50 - p / 2) (youtDof st dof))])
      ∧ confDataXY (ST_TimeResponseResults._plot_orbit_2d st node pct ci).2 =
          ci.flatMap (fun p =>
            [(p, percentileAxis0 (50 + p / 2) (youtDof st (4 * node)),
                 percentileAxis0 (50 + p / 2) (youtDof st (4 * node + 1))),
             (p, percentileAxis0 (50 - p / 2) (youtDof st (4 * node)),
                 percentileAxis0 (50 - p / 2) (youtDof st (4 * node + 1)))])
      ∧ confData3 (ST_TimeResponseResults.orbit3d_axes st pct ci) =
          ci.flatMap (fun p =>
            st.nodes_list.flatMap (fun n =>
              [(p, percentileAxis0 (50 + p / 2) (youtDof st (4 * n)),
                   percentileAxis0 (50 + p / 2) (youtDof st (4 * n + 1))),
               (p, percentileAxis0 (50 - p / 2) (youtDof st (4 * n)),
                   percentileAxis0 (50 - p / 2) (youtDof st (4 * n + 1)))])) := by
  intro sc sf st pct ci harm u dof node j
  refine ⟨fun hj => ?_, fun hj => ?_,
    aux_confData_plot_magnitude sf pct ci u,
    aux_confData_plot_phase sf pct ci,
    aux_confData_time_response st dof pct ci,
    aux_confDataXY_orbit2d st node pct ci,
    aux_confData3_orbit3d st pct ci⟩
  · rw [aux_confPairsMode_nat_freq, if_pos hj]
  · rw [aux_confPairsMode_log_dec, if_pos hj]

/-- Witness for C1 at a concrete state: one mode, ensemble `[0, 100]`,
`conf_interval = [90]`. -/
theorem confidence_pairs_drawn_witness :
    0 < sCw.wd.length ∧ 0 < sCw.log_dec.length
    ∧ confPairsMode (ST_CampbellResults.plot_nat_freq sCw [] [90] [1]).2 (0 + 1) =
        ([90] : List ℚ).flatMap (fun p =>
          [(p, percentileAxis1 (50 + p / 2) (sCw.wd.getD 0 [])),
           (p, percentileAxis1 (50 - p / 2) (sCw.wd.getD 0 []))])
    ∧ confPairsMode (ST_CampbellResults.plot_log_dec sCw [] [90] [1]).2 (0 + 1) =
        (sortQ [90]).flatMap (fun p =>
          [(p, percentileAxis1 (50 + p / 2) (sCw.log_dec.getD 0 [])),
           (p, percentileAxis1 (50 - p / 2) (sCw.log_dec.getD 0 []))]) :=
  ⟨by decide, by decide,
   (confidence_pairs_drawn sCw sFw sTw [] [90] [1] "m" 0 0 0).1 (by decide),
   ((confidence_pairs_drawn sCw sFw sTw [] [90] [1] "m" 0 0 0).2).1 (by decide)⟩

/-- C4 counterexample: with the unsorted percentile list `[90, 10]`, the
first percentile curve drawn by `plot_nat_freq` uses `90` (the first
element as given), but the first percentile curve drawn by `plot_log_dec`
uses `10`, because `plot_log_dec` sorts the list first — so the two
methods do not both use the i-th element as given by the caller. -/
theorem log_dec_percentile_order_cex :
    pctParams (ST_CampbellResults.plot_nat_freq sCw [90, 10] [] [1]).2 = [90, 10]
    ∧ pctParams (ST_CampbellResults.plot_log_dec sCw [90, 10] [] [1]).2 = [10, 90]
    ∧ ([10, 90] : List ℚ) ≠ [90, 10] := by
  refine ⟨?_, ?_, by decide⟩ <;> decide

/-- C4 (amended): the statistical summarization is one uniform per-mode
pattern shared by `plot_nat_freq` and `plot_log_dec`
(`uniformCampbellPattern`); `plot_nat_freq` applies it to the percentile
and confidence lists as given, while `plot_log_dec` applies it to the
ascending sorts of those lists, so the i-th curve of `plot_log_dec` uses
the i-th smallest element rather than the i-th element as given. -/
theorem campbell_uniform_pattern_sorted :
    ∀ (s : ST_CampbellResults) (pct ci harm : List ℚ),
      ((ST_CampbellResults.plot_nat_freq s pct ci harm).2).curves =
        uniformCampbellPattern s.speed_range s.wd pct ci
      ∧ ((ST_CampbellResults.plot_log_dec s pct ci harm).2).curves =
          uniformCampbellPattern s.speed_range s.log_dec (sortQ pct) (sortQ ci) :=
  fun s pct ci harm => ⟨aux_nat_freq_curves s pct ci harm, aux_log_dec_curves s pct ci harm⟩

/-- C8: the `harmonics` parameter of `plot_nat_freq` and `plot_log_dec`
has no effect on the output: two calls differing only in `harmonics`
return identical figures (same curves, data, colours and labels) and
identical state. -/
theorem harmonics_no_effect :
    ∀ (s : ST_CampbellResults) (pct ci h1 h2 : List ℚ),
      ST_CampbellResults.plot_nat_freq s pct ci h1 =
        ST_CampbellResults.plot_nat_freq s pct ci h2
      ∧ ST_CampbellResults.plot_log_dec s pct ci h1 =
          ST_CampbellResults.plot_log_dec s pct ci h2 :=
  fun _ _ _ _ _ => ⟨rfl, rfl⟩

/-- C9: no plotting method of any of the four classes mutates the stored
results: the state component returned by every method (including the
raising dispatcher `plot` and `_plot_orbit_3d`, whose second component
may be an exception) equals the input state. -/
theorem plot_methods_preserve_state :
    ∀ (sc : ST_CampbellResults) (sf : ST_FrequencyResponseResults)
      (st : ST_TimeResponseResults) (sr : ST_ForcedResponseResults)
      (pct ci harm : List ℚ) (u pt : String) (node dofOpt : Option ℕ)
      (dof node2 : ℕ),
      (ST_CampbellResults.plot_nat_freq sc pct ci harm).1 = sc
      ∧ (ST_CampbellResults.plot_log_dec sc pct ci harm).1 = sc
      ∧ (ST_CampbellResults.plot sc pct ci).1 = sc
      ∧ (ST_FrequencyResponseResults.plot_magnitude sf pct ci u).1 = sf
      ∧ (ST_FrequencyResponseResults.plot_phase sf pct ci).1 = sf
      ∧ (ST_FrequencyResponseResults.plot sf pct ci u).1 = sf
      ∧ (ST_TimeResponseResults._plot_time_response st dofOpt pct ci).1 = st
      ∧ (ST_TimeResponseResults._plot_orbit_2d st node2 pct ci).1 = st
      ∧ (ST_TimeResponseResults._plot_orbit_3d st pct ci).1 = st
      ∧ (ST_TimeResponseResults.plot st pt node dofOpt pct ci).1 = st
      ∧ (ST_ForcedResponseResults.plot_magnitude sr dof pct ci u).1 = sr
      ∧ (ST_ForcedResponseResults.plot_phase sr dof pct ci).1 = sr
      ∧ (ST_ForcedResponseResults.plot sr dof pct ci u).1 = sr :=
  fun _ _ _ _ _ _ _ _ _ _ _ _ _ =>
    ⟨rfl, rfl, rfl, rfl, rfl, rfl, rfl, rfl, rfl, rfl, rfl, rfl, rfl⟩

/-- C10: the combined `plot` methods are pure gridding glue: each returns
exactly the grid of the figures produced by its two component methods
with the same `percentile` / `conf_interval` (and `units` / `dof`)
arguments, with no further computation. -/
theorem combined_plots_grid :
    ∀ (sc : ST_CampbellResults) (sf : ST_FrequencyResponseResults)
      (sr : ST_ForcedResponseResults) (pct ci : List ℚ) (u : String) (dof : ℕ),
      (ST_CampbellResults.plot sc pct ci).2 =
        gridplot [[(ST_CampbellResults.plot_nat_freq sc pct ci [1]).2,
                   (ST_CampbellResults.plot_log_dec sc pct ci [1]).2]]
      ∧ (ST_FrequencyResponseResults.plot sf pct ci u).2 =
          gridplot [[(ST_FrequencyResponseResults.plot_magnitude sf pct ci u).2],
                    [(ST_FrequencyResponseResults.plot_phase sf pct ci).2]]
      ∧ (ST_ForcedResponseResults.plot sr dof pct ci u).2 =
          gridplot [[(ST_ForcedResponseResults.plot_magnitude sr dof pct ci u).2],
                    [(ST_ForcedResponseResults.plot_phase sr dof pct ci).2]] :=
  fun _ _ _ _ _ _ _ => ⟨rfl, rfl, rfl⟩

/-- C5: every percentile and mean reduction is taken along the fixed
ensemble axis: under the documented shape assumptions (each `wd[j]` /
`log_dec[j]` has one row per element of `speed_range`; each realization
of `yout` has one row per element of `time_range`), every curve drawn by
`plot_nat_freq`, `plot_log_dec` and `_plot_time_response` has x data
equal to `speed_range` (resp. `time_range`) and y data of exactly that
length. -/
theorem reduction_axis_lengths :
    ∀ (sc : ST_CampbellResults) (st : ST_TimeResponseResults)
      (pct ci harm : List ℚ) (dof : ℕ),
      (∀ j, j < sc.wd.length → (sc.wd.getD j []).length = sc.speed_range.length) →
      (∀ j, j < sc.log_dec.length →
        (sc.log_dec.getD j []).length = sc.speed_range.length) →
      st.yout ≠ [] →
      (∀ r ∈ st.yout, r.length = st.time_range.length) →
      (∀ c ∈ ((ST_CampbellResults.plot_nat_freq sc pct ci harm).2).curves,
          c.x = sc.speed_range ∧ c.y.length = sc.speed_range.length)
      ∧ (∀ c ∈ ((ST_CampbellResults.plot_log_dec sc pct ci harm).2).curves,
          c.x = sc.speed_range ∧ c.y.length = sc.speed_range.length)
      ∧ (∀ c ∈ (ST_TimeResponseResults.time_response_fig st dof pct ci).curves,
          c.x = st.time_range ∧ c.y.length = st.time_range.length) := by
  intro sc st pct ci harm dof hwd hld hy hr
  refine ⟨?_, ?_, aux_time_response_curve_shape st dof pct ci hy hr⟩
  · intro c hc
    rw [aux_nat_freq_curves] at hc
    exact aux_campbell_curve_shape _ _ _ _ hwd c hc
  · intro c hc
    rw [aux_log_dec_curves] at hc
    exact aux_campbell_curve_shape _ _ _ _ hld c hc

/-- Witness for C5 at concrete states satisfying the shape hypotheses. -/
theorem reduction_axis_lengths_witness :
    (∀ j, j < sCw.wd.length → (sCw.wd.getD j []).length = sCw.speed_range.length)
    ∧ (∀ j, j < sCw.log_dec.length →
        (sCw.log_dec.getD j []).length = sCw.speed_range.length)
    ∧ sTw.yout ≠ []
    ∧ (∀ r ∈ sTw.yout, r.length = sTw.time_range.length)
    ∧ (∀ c ∈ ((ST_CampbellResults.plot_nat_freq sCw [50] [90] [1]).2).curves,
        c.x = sCw.speed_range ∧ c.y.length = sCw.speed_range.length)
    ∧ (∀ c ∈ ((ST_CampbellResults.plot_log_dec sCw [50] [90] [1]).2).curves,
        c.x = sCw.speed_range ∧ c.y.length = sCw.speed_range.length)
    ∧ (∀ c ∈ (ST_TimeResponseResults.time_response_fig sTw 0 [50] [90]).curves,
        c.x = sTw.time_range ∧ c.y.length = sTw.time_range.length) := by
  have h1 : ∀ j, j < sCw.wd.length →
      (sCw.wd.getD j []).length = sCw.speed_range.length := by
    intro j hj
    have hj0 : j = 0 := by simp [sCw] at hj; omega
    subst hj0; decide
  have h2 : ∀ j, j < sCw.log_dec.length →
      (sCw.log_dec.getD j []).length = sCw.speed_range.length := by
    intro j hj
    have hj0 : j = 0 := by simp [sCw] at hj; omega
    subst hj0; decide
  have h := reduction_axis_lengths sCw sTw [50] [90] [1] 0 h1 h2 (by decide) (by decide)
  exact ⟨h1, h2, by decide, by decide, h.1, h.2.1, h.2.2⟩

/-- C7: `ST_TimeResponseResults.plot` raises `ValueError` exactly when
`plot_type` is `"2d"` with a node that is not a member of `nodes_list`,
or when `plot_type` is none of `"1d"`, `"2d"`, `"3d"`; otherwise it
forwards to the corresponding auxiliary method with the same `percentile`
and `conf_interval` arguments (the auxiliary methods themselves never
raise `ValueError`, only `TypeError` / `NameError`). -/
theorem time_response_plot_dispatch :
    ∀ (st : ST_TimeResponseResults) (pt : String) (node dof : Option ℕ)
      (pct ci : List ℚ),
      (isValueError (ST_TimeResponseResults.plot st pt node dof pct ci).2 = true ↔
        ((pt = "2d" ∧ nodeMem node st.nodes_list = false)
          ∨ (pt ≠ "1d" ∧ pt ≠ "2d" ∧ pt ≠ "3d")))
      ∧ (pt = "1d" →
          (ST_TimeResponseResults.plot st pt node dof pct ci).2 =
            ((ST_TimeResponseResults._plot_time_response st dof pct ci).2).map
              TRRes.bokeh)
      ∧ (∀ v, pt = "2d" → node = some v → v ∈ st.nodes_list →
          (ST_TimeResponseResults.plot st pt node dof pct ci).2 =
            Except.ok (TRRes.bokeh
              (ST_TimeResponseResults._plot_orbit_2d st v pct ci).2))
      ∧ (pt = "3d" →
          (ST_TimeResponseResults.plot st pt node dof pct ci).2 =
            ((ST_TimeResponseResults._plot_orbit_3d st pct ci).2).map TRRes.mpl) := by
  intro st pt node dof pct ci
  refine ⟨?_, ?_, ?_, ?_⟩
  · by_cases h1 : pt = "1d"
    · subst h1
      cases dof <;>
        simp [ST_TimeResponseResults.plot,
          ST_TimeResponseResults._plot_time_response, isValueError, Except.map]
    · by_cases h2 : pt = "2d"
      · subst h2
        cases node with
        | none => simp [ST_TimeResponseResults.plot, isValueError, nodeMem]
        | some v =>
            by_cases hv : v ∈ st.nodes_list <;>
              simp [ST_TimeResponseResults.plot, isValueError, nodeMem, hv]
      · by_cases h3 : pt = "3d"
        · subst h3
          by_cases hcond : st.nodes_list ≠ [] ∧ pct = [] ∧ ci = [] <;>
            simp [ST_TimeResponseResults.plot,
              ST_TimeResponseResults._plot_orbit_3d, isValueError, Except.map,
              hcond, h1, h2]
        · simp [ST_TimeResponseResults.plot, isValueError, h1, h2, h3]
  · intro h1
    subst h1
    simp [ST_TimeResponseResults.plot]
  · intro v h2 hnode hv
    subst h2
    subst hnode
    simp [ST_TimeResponseResults.plot, hv]
  · intro h3
    subst h3
    simp [ST_TimeResponseResults.plot]

/-- Witness for C7: the 2-d dispatch at a valid node of a concrete
state. -/
theorem time_response_plot_dispatch_witness :
    ("2d" : String) = "2d" ∧ (some 0 : Option ℕ) = some 0 ∧ 0 ∈ sTw.nodes_list
    ∧ (ST_TimeResponseResults.plot sTw "2d" (some 0) none [] []).2 =
        Except.ok (TRRes.bokeh
          (ST_TimeResponseResults._plot_orbit_2d sTw 0 [] []).2) :=
  ⟨rfl, rfl, by decide,
   (((time_response_plot_dispatch sTw "2d" (some 0) none [] []).2).2).1 0 rfl rfl
     (by decide)⟩

/-- C3 (code bug): `_plot_orbit_3d` does not draw its mean curves on the
default call.  With `nodes_list = [0]` and both `percentile` and
`conf_interval` empty (the defaults), the mean loop's
`label="Mean".format(p)` reads the loop variable `p` of the two earlier
(empty) loops, which was never bound, so python raises `NameError` before
any mean curve is drawn — while every other plotting method draws its
mean curves unconditionally. -/
theorem orbit3d_default_name_error :
    (ST_TimeResponseResults._plot_orbit_3d sTw [] []).2 =
      Except.error PyErr.nameError := by
  simp [ST_TimeResponseResults._plot_orbit_3d, sTw]

/-- C6: for every confidence value `p` in `conf_interval` with
`0 ≤ p ≤ 100`, the upper confidence curve (percentile `50 + p/2`) drawn
by `plot_magnitude` (resp. `_plot_time_response`) is pointwise greater
than or equal to the lower one (percentile `50 - p/2`), so the pair
brackets a central band. -/
theorem conf_band_brackets :
    ∀ (sf : ST_FrequencyResponseResults) (st : ST_TimeResponseResults)
      (pct ci : List ℚ) (u : String) (dof : ℕ) (p : ℚ),
      p ∈ ci → 0 ≤ p → p ≤ 100 →
      (∃ cu ∈ ((ST_FrequencyResponseResults.plot_magnitude sf pct ci u).2).curves,
       ∃ cl ∈ ((ST_FrequencyResponseResults.plot_magnitude sf pct ci u).2).curves,
        cu.label = Legend.conf p ∧ cl.label = Legend.conf p
        ∧ cu.y = percentileAxis1 (50 + p / 2) sf.magnitude
        ∧ cl.y = percentileAxis1 (50 - p / 2) sf.magnitude
        ∧ ∀ t, cl.y.getD t 0 ≤ cu.y.getD t 0)
      ∧ (∃ cu ∈ (ST_TimeResponseResults.time_response_fig st dof pct ci).curves,
         ∃ cl ∈ (ST_TimeResponseResults.time_response_fig st dof pct ci).curves,
          cu.label = Legend.conf p ∧ cl.label = Legend.conf p
          ∧ cu.y = percentileAxis0 (50 + p / 2) (youtDof st dof)
          ∧ cl.y = percentileAxis0 (50 - p / 2) (youtDof st dof)
          ∧ ∀ t, cl.y.getD t 0 ≤ cu.y.getD t 0) := by
  intro sf st pct ci u dof p hpmem hp0 hp100
  have hcine : ci ≠ [] := List.ne_nil_of_mem hpmem
  obtain ⟨i, hienum⟩ := aux_mem_enum_of_mem hpmem
  constructor
  · refine ⟨⟨sf.speed_range, percentileAxis1 (50 + p / 2) sf.magnitude,
        .c1 i, 0.6, 2.5, .conf p⟩, ?_,
      ⟨sf.speed_range, percentileAxis1 (50 - p / 2) sf.magnitude,
        .c1 i, 0.6, 2.5, .conf p⟩, ?_,
      rfl, rfl, rfl, rfl,
      fun t => aux_percentileAxis1_mono sf.magnitude (by linarith) (by linarith)
        (by linarith) t⟩
    · simp only [ST_FrequencyResponseResults.plot_magnitude, List.mem_append]
      refine Or.inl (Or.inr ?_)
      rw [if_neg hcine]
      exact List.mem_flatMap.mpr ⟨(i, p), hienum, by simp⟩
    · simp only [ST_FrequencyResponseResults.plot_magnitude, List.mem_append]
      refine Or.inl (Or.inr ?_)
      rw [if_neg hcine]
      exact List.mem_flatMap.mpr ⟨(i, p), hienum, by simp⟩
  · refine ⟨⟨st.time_range, percentileAxis0 (50 + p / 2) (youtDof st dof),
        .c1 i, 0.6, 2.5, .conf p⟩, ?_,
      ⟨st.time_range, percentileAxis0 (50 - p / 2) (youtDof st dof),
        .c1 i, 0.6, 2.5, .conf p⟩, ?_,
      rfl, rfl, rfl, rfl,
      fun t => aux_percentileAxis0_mono (youtDof st dof) (by linarith) (by linarith)
        (by linarith) t⟩
    · simp only [ST_TimeResponseResults.time_response_fig, List.mem_append]
      refine Or.inl (Or.inr ?_)
      exact List.mem_flatMap.mpr ⟨(i, p), hienum, by simp⟩
    · simp only [ST_TimeResponseResults.time_response_fig, List.mem_append]
      refine Or.inl (Or.inr ?_)
      exact List.mem_flatMap.mpr ⟨(i, p), hienum, by simp⟩

/-- Witness for C6 at concrete states with `conf_interval = [80]`. -/
theorem conf_band_brackets_witness :
    ((80 : ℚ) ∈ ([80] : List ℚ)) ∧ ((0 : ℚ) ≤ 80) ∧ ((80 : ℚ) ≤ 100)
    ∧ (∃ cu ∈ ((ST_FrequencyResponseResults.plot_magnitude sFw [] [80] "m").2).curves,
       ∃ cl ∈ ((ST_FrequencyResponseResults.plot_magnitude sFw [] [80] "m").2).curves,
        cu.label = Legend.conf 80 ∧ cl.label = Legend.conf 80
        ∧ cu.y = percentileAxis1 (50 + 80 / 2) sFw.magnitude
        ∧ cl.y = percentileAxis1 (50 - 80 / 2) sFw.magnitude
        ∧ ∀ t, cl.y.getD t 0 ≤ cu.y.getD t 0)
    ∧ (∃ cu ∈ (ST_TimeResponseResults.time_response_fig sTw 0 [] [80]).curves,
       ∃ cl ∈ (ST_TimeResponseResults.time_response_fig sTw 0 [] [80]).curves,
        cu.label = Legend.conf 80 ∧ cl.label = Legend.conf 80
        ∧ cu.y = percentileAxis0 (50 + 80 / 2) (youtDof sTw 0)
        ∧ cl.y = percentileAxis0 (50 - 80 / 2) (youtDof sTw 0)
        ∧ ∀ t, cl.y.getD t 0 ≤ cu.y.getD t 0) :=
  ⟨by decide, by decide, by decide,
   (conf_band_brackets sFw sTw [] [80] "m" 0 80 (by decide) (by decide) (by decide)).1,
   (conf_band_brackets sFw sTw [] [80] "m" 0 80 (by decide) (by decide) (by decide)).2⟩

/-- C2 (code bug): in `_plot_orbit_2d` the curve drawn for a requested
percentile `p` is not the `p`-th percentile of the ensemble: the source's
percentile loop reuses the confidence-interval expression and draws the
`50 + p/2` percentile while labelling it `percentile: p%`.  At the
concrete state `sTw` with `percentile=[40]` the single drawn percentile
curve carries the 70th-percentile data `[70]`, not the requested
40th-percentile data `[40]`.  Every other plotting method uses `p`
itself. -/
theorem orbit2d_percentile_misuse :
    pctDataXY (ST_TimeResponseResults._plot_orbit_2d sTw 0 [40] []).2 =
      [(40, percentileAxis0 (50 + 40 / 2) (youtDof sTw (4 * 0)),
            percentileAxis0 (50 + 40 / 2) (youtDof sTw (4 * 0 + 1)))]
    ∧ percentileAxis0 (50 + (40 : ℚ) / 2) (youtDof sTw 0) = [70]
    ∧ percentileAxis0 (40 : ℚ) (youtDof sTw 0) = [40]
    ∧ (70 : ℚ) ≠ 40 := by
  refine ⟨rfl, ?_, ?_, by norm_num⟩
  · norm_num [percentileAxis0, ncols, colAt, youtDof, sTw, percentile, interpAt,
      sortQ, List.insertionSort, List.orderedInsert, List.getD,
      List.range_succ, List.range_zero]
  · norm_num [percentileAxis0, ncols, colAt, youtDof, sTw, percentile, interpAt,
      sortQ, List.insertionSort, List.orderedInsert, List.getD,
      List.range_succ, List.range_zero]

